import Mathlib

/-!
Verification of the PowerUSB protocol layer (`src/power_usb_device.cc` /
`src/power_usb_device.h`) against its natural-language specification.

The transport (hidapi) is external to the repository, so it is modelled as an
oracle: `Hid` gives the integer return value of each successive `hid_write`
and `hid_read` call and the bytes `hid_read` deposits in the caller's buffer.
A `Session` carries the device handle (`none` models a null `hid_device *`)
together with counters of transport calls made so far and a trace of the
transport events, so that claims about which transport primitives an
operation invokes (and in what order) are statements about the trace.

Each operation of `PowerUsbDevice` is translated directly from the C++,
assuming `NDEBUG` semantics for `assert` (the assertion is a no-op and the
subsequent guard runs), which is what the spec's production-build claims are
about.
-/

namespace pwrusbctl

/-- `enum class SocketState` from `power_usb_device.h`. -/
inductive SocketState
  | Off
  | On
deriving DecidableEq

/-- A transport handle: `none` models a null `hid_device *`. -/
abbrev Handle := Option Unit

/-- One transport invocation, recording which primitive was called, the
handle passed to it, and the payload (for writes) or requested length (for
reads). -/
inductive Event
  | write (dev : Handle) (bytes : List Nat)
  | read (dev : Handle) (length : Nat)
deriving DecidableEq

/-- The transport oracle: `writeRet k` is the `int` returned by the `k`-th
`hid_write` call, `readRet k` the `int` returned by the `k`-th `hid_read`
call, and `readByte k i` the `i`-th byte the `k`-th `hid_read` deposits
(reduced mod 256 at the call site, since the buffer holds `uint8_t`). -/
structure Hid where
  writeRet : Nat → Int
  readRet : Nat → Int
  readByte : Nat → Nat → Nat

/-- The observable state of one `PowerUsbDevice` session: the stored handle
`device_`, how many transport writes and reads have happened, and the trace
of transport events so far. -/
structure Session where
  device_ : Handle
  nwrites : Nat
  nreads : Nat
  trace : List Event
deriving DecidableEq

/-- A fresh session whose constructor's `hid_open` returned `dev`. -/
def mkSession (dev : Handle) : Session :=
  { device_ := dev, nwrites := 0, nreads := 0, trace := [] }

/-- `kVendorId` from `power_usb_device.cc`. -/
def kVendorId : Nat := 0x04d8

/-- `kProductId` from `power_usb_device.cc`. -/
def kProductId : Nat := 0x003f

/-- `kSocketCount` from `power_usb_device.cc`. -/
def kSocketCount : Nat := 3

/-- `kDeviceTypes` from `power_usb_device.cc`. -/
def kDeviceTypes : List String := ["Basic", "Digital IO", "Watchdog", "Smart"]

/-- `kGetDeviceTypeCommand` from `power_usb_device.cc`. -/
def kGetDeviceTypeCommand : Nat := 0xAA

/-- `kGetInstantaneousCurrentCommand` from `power_usb_device.cc`. -/
def kGetInstantaneousCurrentCommand : Nat := 0xB1

/-- `kGetAccumulatedEnergyCommand` from `power_usb_device.cc`. -/
def kGetAccumulatedEnergyCommand : Nat := 0xB2

/-- `kResetChargeAccumulatorCommand` from `power_usb_device.cc`. -/
def kResetChargeAccumulatorCommand : Nat := 0xB3

/-- `kSetPowerOffCommands` from `power_usb_device.cc`. -/
def kSetPowerOffCommands : List Nat := [0x42, 0x44, 0x50]

/-- `kSetPowerOnCommands` from `power_usb_device.cc`. -/
def kSetPowerOnCommands : List Nat := [0x41, 0x43, 0x45]

/-- `kSetDefaultPowerOffCommands` from `power_usb_device.cc`. -/
def kSetDefaultPowerOffCommands : List Nat := [0x46, 0x51, 0x48]

/-- `kSetDefaultPowerOnCommands` from `power_usb_device.cc`. -/
def kSetDefaultPowerOnCommands : List Nat := [0x4E, 0x47, 0x4F]

/-- `PowerUsbDevice::IsInitialized`: `device_ != nullptr`. -/
def IsInitialized (s : Session) : Bool := s.device_.isSome

/-- `PowerUsbDevice::GetSocketCount`: returns the constant `kSocketCount`. -/
def GetSocketCount (_s : Session) : Nat := kSocketCount

/-- `PowerUsbDevice::DeviceWrite`: calls `hid_write(device_, buffer, length)`
and returns `state != -1`.  The event is recorded in the trace with the
handle that was passed. -/
def DeviceWrite (env : Hid) (buffer : List Nat) (s : Session) : Bool × Session :=
  let state := env.writeRet s.nwrites
  (state != -1,
   { s with nwrites := s.nwrites + 1,
            trace := s.trace ++ [Event.write s.device_ buffer] })

/-- `PowerUsbDevice::DeviceRead`: calls `hid_read(device_, buffer, length)`
and returns `state != -1` together with the bytes the transport deposited
in the `uint8_t` buffer. -/
def DeviceRead (env : Hid) (length : Nat) (s : Session) :
    Bool × List Nat × Session :=
  let state := env.readRet s.nreads
  let buffer := (List.range length).map (fun i => env.readByte s.nreads i % 256)
  (state != -1, buffer,
   { s with nreads := s.nreads + 1,
            trace := s.trace ++ [Event.read s.device_ length] })

/-- `PowerUsbDevice::GetDeviceType`: write `0xAA`, read one byte, decrement
it with `uint8_t` wraparound (`device_type--`), reject results above 3, and
otherwise index `kDeviceTypes`.  `none` models the `nullptr` return. -/
def GetDeviceType (env : Hid) (s : Session) : Option String × Session :=
  let (ok, s1) := DeviceWrite env [kGetDeviceTypeCommand] s
  if !ok then (none, s1)
  else
    let (ok2, buffer, s2) := DeviceRead env 1 s1
    if !ok2 then (none, s2)
    else
      let device_type := (buffer.headD 0 + 255) % 256
      if device_type > 3 then (none, s2)
      else (some (kDeviceTypes.getD device_type ""), s2)

/-- `PowerUsbDevice::SetSocketState` under `NDEBUG`: reject out-of-range
indices with no transport call, otherwise write the single command byte from
the on/off table. -/
def SetSocketState (env : Hid) (index : Nat) (state : SocketState)
    (s : Session) : Bool × Session :=
  if index ≥ kSocketCount then (false, s)
  else
    let command_value :=
      match state with
      | SocketState.On => kSetPowerOnCommands.getD index 0
      | SocketState.Off => kSetPowerOffCommands.getD index 0
    DeviceWrite env [command_value] s

/-- `PowerUsbDevice::SetDefaultSocketState` under `NDEBUG`: like
`SetSocketState` with the boot-default tables. -/
def SetDefaultSocketState (env : Hid) (index : Nat) (state : SocketState)
    (s : Session) : Bool × Session :=
  if index ≥ kSocketCount then (false, s)
  else
    let command_value :=
      match state with
      | SocketState.On => kSetDefaultPowerOnCommands.getD index 0
      | SocketState.Off => kSetDefaultPowerOffCommands.getD index 0
    DeviceWrite env [command_value] s

/-- Two's-complement reinterpretation of a machine word as a signed 16-bit
integer, modelling the C assignment of an `int` in `[0, 65535]` to
`int16_t`. -/
def toInt16 (n : Nat) : Int :=
  if n % 65536 < 32768 then ((n % 65536 : Nat) : Int)
  else ((n % 65536 : Nat) : Int) - 65536

/-- Two's-complement reinterpretation of a machine word as a signed 32-bit
integer, modelling the `int32_t` store in `GetAccumulatedCharge`. -/
def toInt32 (n : Nat) : Int :=
  if n % 4294967296 < 2147483648 then ((n % 4294967296 : Nat) : Int)
  else ((n % 4294967296 : Nat) : Int) - 4294967296

/-- Models a caller-supplied `int16_t *` / `int32_t *` out-parameter: whether
the pointer is null, and the value currently stored at the pointed-to
location. -/
structure Ptr where
  isNull : Bool
  val : Int
deriving DecidableEq

/-- `PowerUsbDevice::GetInstantaneousCurrent` under `NDEBUG`: null pointer
check, write `0xB1`, read two bytes, store `(b0 << 8) | b1` into the
`int16_t` output.  The returned `Ptr` is the out-parameter's final state. -/
def GetInstantaneousCurrent (env : Hid) (current : Ptr) (s : Session) :
    Bool × Ptr × Session :=
  if current.isNull then (false, current, s)
  else
    let (ok, s1) := DeviceWrite env [kGetInstantaneousCurrentCommand] s
    if !ok then (false, current, s1)
    else
      let (ok2, buffer, s2) := DeviceRead env 2 s1
      if !ok2 then (false, current, s2)
      else
        (true,
         { current with
             val := toInt16 ((buffer.getD 0 0) <<< 8 ||| buffer.getD 1 0) },
         s2)

/-- `PowerUsbDevice::GetAccumulatedCharge` under `NDEBUG`: null pointer
check, write `0xB2`, read four bytes, store the big-endian combination into
the `int32_t` output. -/
def GetAccumulatedCharge (env : Hid) (accumulated_charge : Ptr) (s : Session) :
    Bool × Ptr × Session :=
  if accumulated_charge.isNull then (false, accumulated_charge, s)
  else
    let (ok, s1) := DeviceWrite env [kGetAccumulatedEnergyCommand] s
    if !ok then (false, accumulated_charge, s1)
    else
      let (ok2, buffer, s2) := DeviceRead env 4 s1
      if !ok2 then (false, accumulated_charge, s2)
      else
        (true,
         { accumulated_charge with
             val := toInt32 ((buffer.getD 0 0) <<< 24 ||| (buffer.getD 1 0) <<< 16
                             ||| (buffer.getD 2 0) <<< 8 ||| buffer.getD 3 0) },
         s2)

/-- `PowerUsbDevice::ResetChargeAccumulator`: write the single byte `0xB3`
and return the write's result. -/
def ResetChargeAccumulator (env : Hid) (s : Session) : Bool × Session :=
  DeviceWrite env [kResetChargeAccumulatorCommand] s

/-- `PowerUsbDevice::ConvertChargeToKilowattHours`, with `float` arithmetic
modelled as exact rational arithmetic in the source's order of operations:
`amp_hours = milliamp_minutes / 60.0f / 1000.0f` then
`(amp_hours * line_voltage) / 1000.0f`. -/
def ConvertChargeToKilowattHours (milliamp_minutes : Int)
    (line_voltage : ℚ) : ℚ :=
  let amp_hours : ℚ := (milliamp_minutes : ℚ) / 60 / 1000
  (amp_hours * line_voltage) / 1000

/-- A concrete transport oracle on which every write and read succeeds and
every read byte is `1`. -/
def env0 : Hid :=
  { writeRet := fun _ => 1, readRet := fun _ => 1, readByte := fun _ _ => 1 }

/-- A concrete transport oracle on which every write fails. -/
def envWriteFail : Hid :=
  { writeRet := fun _ => -1, readRet := fun _ => 1, readByte := fun _ _ => 1 }

/-- A concrete transport oracle on which writes succeed and reads fail. -/
def envReadFail : Hid :=
  { writeRet := fun _ => 1, readRet := fun _ => -1, readByte := fun _ _ => 1 }

/-- A concrete transport oracle delivering all-`0xFF` read payloads. -/
def envFF : Hid :=
  { writeRet := fun _ => 1, readRet := fun _ => 1, readByte := fun _ _ => 0xFF }

/-- C8: the mapping from (operation kind, outlet index, target state) to
command opcode is injective — the twelve outlet opcodes in the four fixed
tables are pairwise distinct, each table having one entry per outlet, so
every outlet has exactly one on-code and one off-code, both distinct. -/
theorem C8_opcodes_injective :
    (kSetPowerOnCommands ++ kSetPowerOffCommands ++
     kSetDefaultPowerOnCommands ++ kSetDefaultPowerOffCommands).Nodup
  ∧ kSetPowerOnCommands.length = kSocketCount
  ∧ kSetPowerOffCommands.length = kSocketCount
  ∧ kSetDefaultPowerOnCommands.length = kSocketCount
  ∧ kSetDefaultPowerOffCommands.length = kSocketCount := by decide

/-- C1 counterexample: a session whose construction found no matching device
(`IsInitialized = false`) does NOT have its protocol operations return
failure without invoking the transport: on a transport oracle whose calls
succeed and deliver byte `1`, `GetDeviceType` on the uninitialized session
invokes the transport write and read primitives (with the null handle) and
even returns success. -/
theorem C1_counterexample :
    IsInitialized (mkSession none) = false
  ∧ (GetDeviceType env0 (mkSession none)).1 = some "Basic"
  ∧ (GetDeviceType env0 (mkSession none)).2.trace =
      [Event.write none [0xAA], Event.read none 1] := by decide

/-- C1 amended: on a session whose construction found no matching device,
the protocol operations perform no initialization check: each of
`GetDeviceType`, `SetSocketState`/`SetDefaultSocketState` (in-range index),
`GetInstantaneousCurrent`/`GetAccumulatedCharge` (non-null output pointer)
and `ResetChargeAccumulator` unconditionally invokes the transport write
primitive, passing the null handle, whatever the transport oracle. -/
theorem C1_no_init_guard_still_invokes_transport (env : Hid) (i : Nat)
    (st : SocketState) (p : Ptr) (hi : i < kSocketCount)
    (hp : p.isNull = false) :
    (∃ b, (GetDeviceType env (mkSession none)).2.trace.head? =
            some (Event.write none b))
  ∧ (∃ b, (SetSocketState env i st (mkSession none)).2.trace.head? =
            some (Event.write none b))
  ∧ (∃ b, (SetDefaultSocketState env i st (mkSession none)).2.trace.head? =
            some (Event.write none b))
  ∧ (∃ b, (GetInstantaneousCurrent env p (mkSession none)).2.2.trace.head? =
            some (Event.write none b))
  ∧ (∃ b, (GetAccumulatedCharge env p (mkSession none)).2.2.trace.head? =
            some (Event.write none b))
  ∧ (∃ b, (ResetChargeAccumulator env (mkSession none)).2.trace.head? =
            some (Event.write none b)) := by
  refine ⟨⟨[kGetDeviceTypeCommand], ?_⟩, ?_, ?_, ?_, ?_,
          ⟨[kResetChargeAccumulatorCommand], ?_⟩⟩
  · by_cases hw : env.writeRet 0 = -1 <;>
      by_cases hr : env.readRet 0 = -1 <;>
        · simp [GetDeviceType, DeviceWrite, DeviceRead, mkSession, hw, hr]
          try (split <;> simp)
  · refine ⟨[match st with
             | SocketState.On => kSetPowerOnCommands.getD i 0
             | SocketState.Off => kSetPowerOffCommands.getD i 0], ?_⟩
    simp [SetSocketState, Nat.not_le.mpr hi, DeviceWrite, mkSession]
  · refine ⟨[match st with
             | SocketState.On => kSetDefaultPowerOnCommands.getD i 0
             | SocketState.Off => kSetDefaultPowerOffCommands.getD i 0], ?_⟩
    simp [SetDefaultSocketState, Nat.not_le.mpr hi, DeviceWrite, mkSession]
  · refine ⟨[kGetInstantaneousCurrentCommand], ?_⟩
    by_cases hw : env.writeRet 0 = -1 <;>
      by_cases hr : env.readRet 0 = -1 <;>
        simp [GetInstantaneousCurrent, DeviceWrite, DeviceRead, mkSession,
              hp, hw, hr]
  · refine ⟨[kGetAccumulatedEnergyCommand], ?_⟩
    by_cases hw : env.writeRet 0 = -1 <;>
      by_cases hr : env.readRet 0 = -1 <;>
        simp [GetAccumulatedCharge, DeviceWrite, DeviceRead, mkSession,
              hp, hw, hr]
  · simp [ResetChargeAccumulator, DeviceWrite, mkSession]

/-- C1 amended, witness: at a concrete oracle, index 0, state `On` and a
non-null output pointer, the hypotheses hold and the theorem applies. -/
theorem C1_no_init_guard_still_invokes_transport_witness :
    (0 < kSocketCount ∧ (Ptr.mk false 0).isNull = false)
  ∧ (∃ b, (GetDeviceType env0 (mkSession none)).2.trace.head? =
            some (Event.write none b)) :=
  ⟨⟨by decide, by decide⟩,
   (C1_no_init_guard_still_invokes_transport env0 0 SocketState.On
      (Ptr.mk false 0) (by decide) (by decide)).1⟩

/-- C2: for every outlet index `i < 3` and every state, `SetSocketState`
writes exactly the single command byte from the fixed tables (On:
`0x41, 0x43, 0x45`; Off: `0x42, 0x44, 0x50` by index) and
`SetDefaultSocketState` exactly the byte from the boot-default tables
(Default-On: `0x4E, 0x47, 0x4F`; Default-Off: `0x46, 0x51, 0x48`), with no
other bytes written, and each returns success exactly when the transport
write succeeds (`hid_write` did not return `-1`). -/
theorem C2_socket_command_bytes (env : Hid) (s : Session) (i : Nat)
    (st : SocketState) (hi : i < 3) :
    (SetSocketState env i st s).2.trace =
      s.trace ++ [Event.write s.device_
        [(match st with
          | SocketState.On => [0x41, 0x43, 0x45]
          | SocketState.Off => [0x42, 0x44, 0x50]).getD i 0]]
  ∧ ((SetSocketState env i st s).1 = true ↔ env.writeRet s.nwrites ≠ -1)
  ∧ (SetDefaultSocketState env i st s).2.trace =
      s.trace ++ [Event.write s.device_
        [(match st with
          | SocketState.On => [0x4E, 0x47, 0x4F]
          | SocketState.Off => [0x46, 0x51, 0x48]).getD i 0]]
  ∧ ((SetDefaultSocketState env i st s).1 = true ↔
       env.writeRet s.nwrites ≠ -1) := by
  have hk : ¬ i ≥ kSocketCount := Nat.not_le.mpr hi
  cases st <;>
    simp [SetSocketState, SetDefaultSocketState, DeviceWrite, hk,
          kSetPowerOnCommands, kSetPowerOffCommands,
          kSetDefaultPowerOnCommands, kSetDefaultPowerOffCommands]

/-- C2 witness: the theorem applied at a concrete oracle, session, index 0
and state `On`. -/
theorem C2_socket_command_bytes_witness :
    (SetSocketState env0 0 SocketState.On (mkSession (some ()))).2.trace =
      [Event.write (some ()) [0x41]] :=
  (C2_socket_command_bytes env0 (mkSession (some ())) 0 SocketState.On
    (by decide)).1

/-- C3: `GetDeviceType` writes the single byte `0xAA` and, when the write
succeeds, reads one byte `b`; a write or read failure propagates as `none`
with no further transport action; otherwise the raw byte is decremented
with `uint8_t` wraparound and rejected when the result exceeds 3, so raw
byte 0 (which wraps to 255) and raw bytes 5 and above yield `none`, while
raw bytes 1..4 map to Basic, Digital IO, Watchdog, Smart. -/
theorem C3_get_device_type (env : Hid) (s : Session) :
    (env.writeRet s.nwrites = -1 →
       (GetDeviceType env s).1 = none ∧
       (GetDeviceType env s).2.trace =
         s.trace ++ [Event.write s.device_ [0xAA]])
  ∧ (env.writeRet s.nwrites ≠ -1 →
      ((GetDeviceType env s).2.trace =
         s.trace ++ [Event.write s.device_ [0xAA], Event.read s.device_ 1])
    ∧ (env.readRet s.nreads = -1 → (GetDeviceType env s).1 = none)
    ∧ (env.readRet s.nreads ≠ -1 →
        ((env.readByte s.nreads 0 % 256 = 0 → (GetDeviceType env s).1 = none)
       ∧ (env.readByte s.nreads 0 % 256 = 1 →
            (GetDeviceType env s).1 = some "Basic")
       ∧ (env.readByte s.nreads 0 % 256 = 2 →
            (GetDeviceType env s).1 = some "Digital IO")
       ∧ (env.readByte s.nreads 0 % 256 = 3 →
            (GetDeviceType env s).1 = some "Watchdog")
       ∧ (env.readByte s.nreads 0 % 256 = 4 →
            (GetDeviceType env s).1 = some "Smart")
       ∧ (5 ≤ env.readByte s.nreads 0 % 256 →
            (GetDeviceType env s).1 = none)))) := by
  by_cases hw : env.writeRet s.nwrites = -1
  · refine ⟨fun _ => ?_, fun hw2 => absurd hw hw2⟩
    simp [GetDeviceType, DeviceWrite, kGetDeviceTypeCommand, hw]
  · refine ⟨fun hw2 => absurd hw2 hw, fun _ => ?_⟩
    by_cases hr : env.readRet s.nreads = -1
    · refine ⟨?_, fun _ => ?_, fun hr2 => absurd hr hr2⟩ <;>
        simp [GetDeviceType, DeviceWrite, DeviceRead, kGetDeviceTypeCommand,
              hw, hr]
    · refine ⟨?_, fun hr2 => absurd hr2 hr, fun _ => ?_⟩
      · simp [GetDeviceType, DeviceWrite, DeviceRead, kGetDeviceTypeCommand,
              hw, hr]
        split <;> simp
      · have hrange : List.range 1 = [0] := rfl
        refine ⟨fun hb => ?c0, fun hb => ?c1, fun hb => ?c2, fun hb => ?c3,
                fun hb => ?c4, fun hb => ?cbig⟩
        case cbig =>
          have hgt : 3 < (env.readByte s.nreads 0 + 255) % 256 := by omega
          simp [GetDeviceType, DeviceWrite, DeviceRead, hrange,
                hw, hr, hgt]
        all_goals
          simp [GetDeviceType, DeviceWrite, DeviceRead, hrange,
                hw, hr, hb, kDeviceTypes]

/-- C3 witness: at a concrete all-succeed oracle delivering raw byte 1, the
hypotheses along the success path hold and the theorem yields Basic. -/
theorem C3_get_device_type_witness :
    (GetDeviceType env0 (mkSession (some ()))).1 = some "Basic" :=
  ((((C3_get_device_type env0 (mkSession (some ()))).2
      (by decide)).2.2 (by decide)).2.1 (by decide))

/-- C4: for every index `i ≥ 3` and every state, `SetSocketState` and
`SetDefaultSocketState` return failure with the session unchanged — in
particular zero transport writes — under `NDEBUG` semantics (in debug
builds the `assert(index < kSocketCount)` fires first). -/
theorem C4_out_of_range_rejected (env : Hid) (s : Session) (i : Nat)
    (st : SocketState) (hi : 3 ≤ i) :
    SetSocketState env i st s = (false, s)
  ∧ SetDefaultSocketState env i st s = (false, s) := by
  have hk : i ≥ kSocketCount := hi
  constructor <;> simp [SetSocketState, SetDefaultSocketState, hk]

/-- C4 witness: the theorem applied at index 3. -/
theorem C4_out_of_range_rejected_witness :
    SetSocketState env0 3 SocketState.On (mkSession (some ())) =
      (false, mkSession (some ())) :=
  (C4_out_of_range_rejected env0 (mkSession (some ())) 3 SocketState.On
    (by decide)).1

/-- Combining disjoint bit ranges: when `b < 2 ^ k`, the bitwise-or
`a <<< k ||| b` is the sum `2 ^ k * a + b`, so the C expressions
`(b0 << 8) | b1` and friends are positional byte compositions. -/
theorem shiftLeft_lor_eq_add (k a b : Nat) (hb : b < 2 ^ k) :
    a <<< k ||| b = 2 ^ k * a + b := by
  apply Nat.eq_of_testBit_eq
  intro j
  rw [Nat.testBit_lor, Nat.shiftLeft_eq, Nat.mul_comm a (2 ^ k),
      Nat.testBit_mul_pow_two, Nat.testBit_mul_pow_two_add a hb]
  by_cases h : j < k
  · have hnle : ¬ j ≥ k := Nat.not_le.mpr h
    simp [h, hnle]
  · have hj : k ≤ j := Nat.not_lt.mp h
    have hbj : b.testBit j = false :=
      Nat.testBit_lt_two_pow
        (lt_of_lt_of_le hb (Nat.pow_le_pow_right (by norm_num) hj))
    simp [h, hj, hbj]

/-- `toInt16` is the two's-complement signed reading: congruent to its
argument mod `2^16` and within `[-2^15, 2^15)`. -/
theorem toInt16_spec (n : Nat) :
    toInt16 n % 65536 = (n : Int) % 65536
  ∧ -32768 ≤ toInt16 n ∧ toInt16 n < 32768 := by
  unfold toInt16
  split <;> omega

/-- `toInt32` is the two's-complement signed reading: congruent to its
argument mod `2^32` and within `[-2^31, 2^31)`. -/
theorem toInt32_spec (n : Nat) :
    toInt32 n % 4294967296 = (n : Int) % 4294967296
  ∧ -2147483648 ≤ toInt32 n ∧ toInt32 n < 2147483648 := by
  unfold toInt32
  split <;> omega

/-- C5: on a successful exchange, `GetInstantaneousCurrent` stores the
big-endian two's-complement signed 16-bit reading of the two response bytes
(`(b0 << 8) | b1` reduced mod `2^16` with sign, no clamping — bytes
`0xFF, 0xFF` yield `-1` and success), and `GetAccumulatedCharge` stores the
big-endian two's-complement signed 32-bit reading of the four response
bytes with natural wraparound. -/
theorem C5_big_endian_decode (env : Hid) (s : Session) (p : Ptr)
    (hp : p.isNull = false) (hw : env.writeRet s.nwrites ≠ -1)
    (hr : env.readRet s.nreads ≠ -1) :
    ((GetInstantaneousCurrent env p s).1 = true
   ∧ (GetInstantaneousCurrent env p s).2.1.val =
       toInt16 ((env.readByte s.nreads 0 % 256) <<< 8 |||
                env.readByte s.nreads 1 % 256)
   ∧ (GetInstantaneousCurrent env p s).2.1.val % 65536 =
       (((env.readByte s.nreads 0 % 256) * 256 +
         env.readByte s.nreads 1 % 256 : Nat) : Int) % 65536
   ∧ -32768 ≤ (GetInstantaneousCurrent env p s).2.1.val
   ∧ (GetInstantaneousCurrent env p s).2.1.val < 32768
   ∧ (env.readByte s.nreads 0 = 0xFF → env.readByte s.nreads 1 = 0xFF →
        (GetInstantaneousCurrent env p s).2.1.val = -1))
  ∧ ((GetAccumulatedCharge env p s).1 = true
   ∧ (GetAccumulatedCharge env p s).2.1.val =
       toInt32 ((env.readByte s.nreads 0 % 256) <<< 24 |||
                (env.readByte s.nreads 1 % 256) <<< 16 |||
                (env.readByte s.nreads 2 % 256) <<< 8 |||
                env.readByte s.nreads 3 % 256)
   ∧ (GetAccumulatedCharge env p s).2.1.val % 4294967296 =
       (((env.readByte s.nreads 0 % 256) * 16777216 +
         (env.readByte s.nreads 1 % 256) * 65536 +
         (env.readByte s.nreads 2 % 256) * 256 +
         env.readByte s.nreads 3 % 256 : Nat) : Int) % 4294967296
   ∧ -2147483648 ≤ (GetAccumulatedCharge env p s).2.1.val
   ∧ (GetAccumulatedCharge env p s).2.1.val < 2147483648) := by
  have hrange2 : List.range 2 = [0, 1] := rfl
  have hrange4 : List.range 4 = [0, 1, 2, 3] := rfl
  have hv16 : (GetInstantaneousCurrent env p s).2.1.val =
      toInt16 ((env.readByte s.nreads 0 % 256) <<< 8 |||
               env.readByte s.nreads 1 % 256) := by
    simp [GetInstantaneousCurrent, DeviceWrite, DeviceRead, hrange2,
          hp, hw, hr]
  have hv32 : (GetAccumulatedCharge env p s).2.1.val =
      toInt32 ((env.readByte s.nreads 0 % 256) <<< 24 |||
               (env.readByte s.nreads 1 % 256) <<< 16 |||
               (env.readByte s.nreads 2 % 256) <<< 8 |||
               env.readByte s.nreads 3 % 256) := by
    simp [GetAccumulatedCharge, DeviceWrite, DeviceRead, hrange4,
          hp, hw, hr]
  have hb0 : env.readByte s.nreads 0 % 256 < 256 := Nat.mod_lt _ (by norm_num)
  have hb1 : env.readByte s.nreads 1 % 256 < 256 := Nat.mod_lt _ (by norm_num)
  have hb2 : env.readByte s.nreads 2 % 256 < 256 := Nat.mod_lt _ (by norm_num)
  have hb3 : env.readByte s.nreads 3 % 256 < 256 := Nat.mod_lt _ (by norm_num)
  have hor16 : (env.readByte s.nreads 0 % 256) <<< 8 |||
      env.readByte s.nreads 1 % 256 =
      (env.readByte s.nreads 0 % 256) * 256 +
      env.readByte s.nreads 1 % 256 := by
    rw [shiftLeft_lor_eq_add 8 _ _ (by omega)]
    ring
  have hinner : (env.readByte s.nreads 2 % 256) <<< 8 |||
      env.readByte s.nreads 3 % 256 =
      (env.readByte s.nreads 2 % 256) * 256 +
      env.readByte s.nreads 3 % 256 := by
    rw [shiftLeft_lor_eq_add 8 _ _ (by omega)]
    ring
  have hor32 : (env.readByte s.nreads 0 % 256) <<< 24 |||
      (env.readByte s.nreads 1 % 256) <<< 16 |||
      (env.readByte s.nreads 2 % 256) <<< 8 |||
      env.readByte s.nreads 3 % 256 =
      (env.readByte s.nreads 0 % 256) * 16777216 +
      (env.readByte s.nreads 1 % 256) * 65536 +
      (env.readByte s.nreads 2 % 256) * 256 +
      env.readByte s.nreads 3 % 256 := by
    rw [Nat.lor_assoc, Nat.lor_assoc, hinner]
    rw [shiftLeft_lor_eq_add 16 _ _ (by omega)]
    rw [shiftLeft_lor_eq_add 24 _ _ (by omega)]
    ring
  refine ⟨⟨?_, hv16, ?_, ?_, ?_, fun h0 h1 => ?_⟩, ⟨?_, hv32, ?_, ?_, ?_⟩⟩
  · simp [GetInstantaneousCurrent, DeviceWrite, DeviceRead, hp, hw, hr]
  · rw [hv16, hor16]
    exact (toInt16_spec _).1
  · rw [hv16]
    exact (toInt16_spec _).2.1
  · rw [hv16]
    exact (toInt16_spec _).2.2
  · rw [hv16, h0, h1]
    decide
  · simp [GetAccumulatedCharge, DeviceWrite, DeviceRead, hp, hw, hr]
  · rw [hv32, hor32]
    exact (toInt32_spec _).1
  · rw [hv32]
    exact (toInt32_spec _).2.1
  · rw [hv32]
    exact (toInt32_spec _).2.2

/-- C5 witness: at the all-`0xFF` oracle with a non-null output pointer, the
hypotheses hold and the current read succeeds with value `-1`. -/
theorem C5_big_endian_decode_witness :
    (GetInstantaneousCurrent envFF (Ptr.mk false 0) (mkSession (some ()))).1 =
      true
  ∧ (GetInstantaneousCurrent envFF (Ptr.mk false 0)
      (mkSession (some ()))).2.1.val = -1 :=
  ⟨(C5_big_endian_decode envFF (mkSession (some ())) (Ptr.mk false 0)
      (by decide) (by decide) (by decide)).1.1,
   (C5_big_endian_decode envFF (mkSession (some ())) (Ptr.mk false 0)
      (by decide) (by decide) (by decide)).1.2.2.2.2.2 rfl rfl⟩

/-- C6: `ConvertChargeToKilowattHours` is a pure function of its two
arguments computing, in the source's order of operations,
`amp_hours = milliamp_minutes / 60 / 1000` and then
`(amp_hours * line_voltage) / 1000`; in particular it maps charge `0` to
`0` for every line voltage, and `(60000, 115)` to `0.115`.  (The C `float`
arithmetic is modelled as exact rational arithmetic; on these inputs every
intermediate `float` operation is exact except the final division, whose
rounding coincides with that of the literal `0.115`.) -/
theorem C6_convert_charge (v : ℚ) :
    ConvertChargeToKilowattHours 0 v = 0
  ∧ ConvertChargeToKilowattHours 60000 115 = 0.115
  ∧ (∀ m : Int,
      ConvertChargeToKilowattHours m v = (((m : ℚ) / 60 / 1000) * v) / 1000) := by
  refine ⟨?_, ?_, fun m => rfl⟩
  · simp [ConvertChargeToKilowattHours]
  · norm_num [ConvertChargeToKilowattHours]

/-- The single-exchange trace contract: starting from `s`, the finishing
session `sNew` shows exactly one transport write of `bytes`, followed by
exactly one transport read of `readLen` bytes when the write succeeded and
by nothing when it failed. -/
def TraceOneWriteMaybeRead (env : Hid) (s sNew : Session) (bytes : List Nat)
    (readLen : Nat) : Prop :=
  (env.writeRet s.nwrites = -1 →
     sNew.trace = s.trace ++ [Event.write s.device_ bytes])
  ∧ (env.writeRet s.nwrites ≠ -1 →
     sNew.trace = s.trace ++ [Event.write s.device_ bytes,
                              Event.read s.device_ readLen])

/-- C7: every protocol operation issues at most one transport write
followed (for the query operations) by at most one transport read, in that
order; a write failure propagates with the read never attempted, and no
write or read is retried — the write-only operations append exactly one
write event and the query operations satisfy the one-write-then-maybe-read
trace contract, whatever the oracle answers. -/
theorem C7_single_exchange (env : Hid) (s : Session) (i : Nat)
    (st : SocketState) (p : Ptr) (hi : i < kSocketCount)
    (hp : p.isNull = false) :
    TraceOneWriteMaybeRead env s (GetDeviceType env s).2
      [kGetDeviceTypeCommand] 1
  ∧ TraceOneWriteMaybeRead env s (GetInstantaneousCurrent env p s).2.2
      [kGetInstantaneousCurrentCommand] 2
  ∧ TraceOneWriteMaybeRead env s (GetAccumulatedCharge env p s).2.2
      [kGetAccumulatedEnergyCommand] 4
  ∧ (∃ b, (SetSocketState env i st s).2.trace =
        s.trace ++ [Event.write s.device_ [b]])
  ∧ (∃ b, (SetDefaultSocketState env i st s).2.trace =
        s.trace ++ [Event.write s.device_ [b]])
  ∧ (ResetChargeAccumulator env s).2.trace =
      s.trace ++ [Event.write s.device_ [kResetChargeAccumulatorCommand]] := by
  have hk : ¬ i ≥ kSocketCount := Nat.not_le.mpr hi
  simp only [TraceOneWriteMaybeRead]
  refine ⟨⟨fun hw => ?_, fun hw => ?_⟩, ⟨fun hw => ?_, fun hw => ?_⟩,
          ⟨fun hw => ?_, fun hw => ?_⟩,
          ⟨(match st with
            | SocketState.On => kSetPowerOnCommands.getD i 0
            | SocketState.Off => kSetPowerOffCommands.getD i 0), ?_⟩,
          ⟨(match st with
            | SocketState.On => kSetDefaultPowerOnCommands.getD i 0
            | SocketState.Off => kSetDefaultPowerOffCommands.getD i 0), ?_⟩,
          ?_⟩
  · simp [GetDeviceType, DeviceWrite, hw]
  · by_cases hr : env.readRet s.nreads = -1 <;>
      simp [GetDeviceType, DeviceWrite, DeviceRead, hw, hr]
    split <;> simp
  · simp [GetInstantaneousCurrent, DeviceWrite, hp, hw]
  · by_cases hr : env.readRet s.nreads = -1 <;>
      simp [GetInstantaneousCurrent, DeviceWrite, DeviceRead, hp, hw, hr]
  · simp [GetAccumulatedCharge, DeviceWrite, hp, hw]
  · by_cases hr : env.readRet s.nreads = -1 <;>
      simp [GetAccumulatedCharge, DeviceWrite, DeviceRead, hp, hw, hr]
  · simp [SetSocketState, DeviceWrite, hk]
  · simp [SetDefaultSocketState, DeviceWrite, hk]
  · simp [ResetChargeAccumulator, DeviceWrite]

/-- C7 witness: the contract applied at a concrete oracle, index 0, state
`On` and a non-null output pointer; the write-failure branch of the
device-type exchange is exercised on `envWriteFail`. -/
theorem C7_single_exchange_witness :
    (GetDeviceType envWriteFail (mkSession (some ()))).2.trace =
      [Event.write (some ()) [kGetDeviceTypeCommand]] :=
  (C7_single_exchange envWriteFail (mkSession (some ())) 0 SocketState.On
    (Ptr.mk false 0) (by decide) (by decide)).1.1 (by decide)

/-- C9: whenever `GetInstantaneousCurrent` or `GetAccumulatedCharge`
returns failure — null pointer, write failure or read failure — the
caller-supplied output location is left exactly as it was; the decoded
value is stored only on the path that returns success. -/
theorem C9_output_frame (env : Hid) (s : Session) (p : Ptr) :
    ((GetInstantaneousCurrent env p s).1 = false →
       (GetInstantaneousCurrent env p s).2.1 = p)
  ∧ ((GetAccumulatedCharge env p s).1 = false →
       (GetAccumulatedCharge env p s).2.1 = p)
  ∧ ((GetInstantaneousCurrent env p s).1 = true →
       (GetInstantaneousCurrent env p s).2.1.isNull = p.isNull
     ∧ (GetInstantaneousCurrent env p s).2.1.val =
         toInt16 ((env.readByte s.nreads 0 % 256) <<< 8 |||
                  env.readByte s.nreads 1 % 256))
  ∧ ((GetAccumulatedCharge env p s).1 = true →
       (GetAccumulatedCharge env p s).2.1.isNull = p.isNull
     ∧ (GetAccumulatedCharge env p s).2.1.val =
         toInt32 ((env.readByte s.nreads 0 % 256) <<< 24 |||
                  (env.readByte s.nreads 1 % 256) <<< 16 |||
                  (env.readByte s.nreads 2 % 256) <<< 8 |||
                  env.readByte s.nreads 3 % 256)) := by
  have hrange2 : List.range 2 = [0, 1] := rfl
  have hrange4 : List.range 4 = [0, 1, 2, 3] := rfl
  by_cases hp : p.isNull
  · refine ⟨fun _ => ?_, fun _ => ?_, fun h => ?_, fun h => ?_⟩ <;>
      simp_all [GetInstantaneousCurrent, GetAccumulatedCharge]
  · by_cases hw : env.writeRet s.nwrites = -1
    · refine ⟨fun _ => ?_, fun _ => ?_, fun h => ?_, fun h => ?_⟩ <;>
        simp_all [GetInstantaneousCurrent, GetAccumulatedCharge, DeviceWrite]
    · by_cases hr : env.readRet s.nreads = -1
      · refine ⟨fun _ => ?_, fun _ => ?_, fun h => ?_, fun h => ?_⟩ <;>
          simp_all [GetInstantaneousCurrent, GetAccumulatedCharge,
                    DeviceWrite, DeviceRead]
      · refine ⟨fun h => ?_, fun h => ?_, fun _ => ?_, fun _ => ?_⟩
        · exact absurd h (by
            simp [GetInstantaneousCurrent, DeviceWrite, DeviceRead,
                  hp, hw, hr])
        · exact absurd h (by
            simp [GetAccumulatedCharge, DeviceWrite, DeviceRead,
                  hp, hw, hr])
        · constructor <;>
            simp [GetInstantaneousCurrent, DeviceWrite, DeviceRead,
                  hrange2, hp, hw, hr]
        · constructor <;>
            simp [GetAccumulatedCharge, DeviceWrite, DeviceRead,
                  hrange4, hp, hw, hr]

/-- C9 witness: on an oracle whose write fails, the failing current read
leaves the output location holding its old value `7`. -/
theorem C9_output_frame_witness :
    (GetInstantaneousCurrent envWriteFail (Ptr.mk false 7)
      (mkSession (some ()))).2.1 = Ptr.mk false 7 :=
  (C9_output_frame envWriteFail (mkSession (some ())) (Ptr.mk false 7)).1
    (by decide)

/-- C10: called with a null output pointer (under `NDEBUG`; in debug builds
the assertion fires), `GetInstantaneousCurrent` and `GetAccumulatedCharge`
return `false` with the session untouched — before any transport I/O. -/
theorem C10_null_pointer (env : Hid) (s : Session) (p : Ptr)
    (hp : p.isNull = true) :
    GetInstantaneousCurrent env p s = (false, p, s)
  ∧ GetAccumulatedCharge env p s = (false, p, s) := by
  constructor <;> simp [GetInstantaneousCurrent, GetAccumulatedCharge, hp]

/-- C10 witness: the theorem applied to a null output pointer. -/
theorem C10_null_pointer_witness :
    GetInstantaneousCurrent env0 (Ptr.mk true 0) (mkSession (some ())) =
      (false, Ptr.mk true 0, mkSession (some ())) :=
  (C10_null_pointer env0 (mkSession (some ())) (Ptr.mk true 0) rfl).1

end pwrusbctl
